import Mathlib

/-!
# Verification of the `js_up_2023` spatial-plan validation tool

This file gives a shallow embedding, in Lean 4, of the validation logic of the
`js_up_2023` repository (a checker for packaged municipal spatial-plan layers)
and settles a list of claims about it.

The repository's own code is pure orchestration over two external libraries
(shapely for planar geometry, pandas/geopandas for tabular data).  Following
the project specification, which declares the geometry kernel an external
collaborator, the embedding fixes a concrete, executable semantic domain for
the geometric values the checkers manipulate:

* a *region* is a finite set of unit grid cells (`Finset (Int × Int)`);
  union / intersection / difference / containment are the set operations,
  which is exactly the algebra of planar boolean operations the code consumes;
* a (multi)polygon's *parts* are the 4-connected components of its cell set;
  a region is a `Polygon` when it has exactly one part, otherwise it plays the
  role of a `MultiPolygon`;
* the *interior rings* (holes) of a region are the bounded connected
  components of its complement, computed inside a bounding box one cell wider
  than the region.

Python-semantics details that the checkers' control flow depends on (a pandas
series object is never `None`; `bool(...)` of a pandas series raises
`ValueError` unconditionally, whatever the series' length, so a shapely
scalar-predicate method called on a whole series raises; a missing dictionary
key or column raises `KeyError`; an uncaught exception propagates out of the
checker) are embedded
explicitly: series values are wrapped in `PyVal`, fallible code returns
`Except PyErr _`.

Each checker definition below is translated from the named function of the
source; comments quote the decisive source lines.
-/

namespace JsUp

/-! ## The cell-complex geometry model (the external geometry library) -/

/-- A unit grid cell of the plane. -/
abbrev Cell : Type := Int × Int

/-- A region: a finite set of unit cells.  This is the semantic domain for the
shapely (multi)polygons the checkers read from the package layers. -/
abbrev Region : Type := Finset Cell

/-- shapely `a.within(b)` on polygonal regions: `a` is contained in `b`. -/
def gWithin (a b : Region) : Bool := decide (a ⊆ b)

/-- shapely `a.intersects(b)`: the regions share at least one cell. -/
def gIntersects (a b : Region) : Bool := decide (a ∩ b).Nonempty

/-- geopandas `dissolve()` (also shapely `unary_union`): the union of all
features of a layer, as one (possibly multi-part) region. -/
def dissolveL (l : List Region) : Region := l.foldr (· ∪ ·) ∅

/-- The four edge-neighbours of a cell (4-connectivity). -/
def nbrs (c : Cell) : List Cell :=
  [(c.1 + 1, c.2), (c.1 - 1, c.2), (c.1, c.2 + 1), (c.1, c.2 - 1)]

/-- One breadth-first growth step: the cells of `s` that are already in `acc`
or are edge-adjacent to a cell of `acc`. -/
def growStep (s acc : Region) : Region :=
  s.filter (fun c => c ∈ acc ∨ ∃ d ∈ nbrs c, d ∈ acc)

/-- Iterated growth; `s.card` steps always reach the connected component.
(For a seed inside `s` each round only ever enlarges the front, so reaching a
fixed cardinality means the component is complete.) -/
def grow (s : Region) : Nat → Region → Region
  | 0, acc => acc
  | n + 1, acc =>
    let acc' := growStep s acc
    if acc'.card = acc.card then acc else grow s n acc'

/-- The 4-connected component of `c` inside `s`. -/
def compOf (s : Region) (c : Cell) : Region := grow s s.card {c}

/-- Lexicographic order on cells, used to enumerate a region canonically. -/
def cellLe (a b : Cell) : Prop := a.1 < b.1 ∨ (a.1 = b.1 ∧ a.2 ≤ b.2)

instance : DecidableRel cellLe := fun a b => by unfold cellLe; infer_instance

instance : IsTrans Cell cellLe := ⟨by rintro ⟨a1, a2⟩ ⟨b1, b2⟩ ⟨c1, c2⟩ hab hbc
                                      simp only [cellLe] at *; omega⟩

instance : IsAntisymm Cell cellLe := ⟨by rintro ⟨a1, a2⟩ ⟨b1, b2⟩ hab hba
                                         simp only [cellLe] at *
                                         simp only [Prod.mk.injEq]; omega⟩

instance : IsTotal Cell cellLe := ⟨by rintro ⟨a1, a2⟩ ⟨b1, b2⟩
                                      simp only [cellLe]; omega⟩

/-- The cells of a region enumerated in lexicographic order (a canonical,
executable enumeration of the finite set). -/
def cellsSorted (s : Region) : List Cell :=
  Quot.liftOn s.val (fun l => l.insertionSort cellLe)
    (fun _ _ h => List.eq_of_perm_of_sorted
      (((List.perm_insertionSort cellLe _).trans h).trans
        (List.perm_insertionSort cellLe _).symm)
      (List.sorted_insertionSort cellLe _) (List.sorted_insertionSort cellLe _))

/-- The lexicographically least cell of a region, if any. -/
def minCell (s : Region) : Option Cell := (cellsSorted s).head?

/-- shapely `a == b` (also `!=` after negation): exact geometric equality.
Stated through the canonical enumeration so that it evaluates. -/
def gEquals (a b : Region) : Bool := cellsSorted a = cellsSorted b

/-- Auxiliary: peel off connected components, smallest remaining cell first. -/
def ccPartsAux : Nat → Region → List Region
  | 0, _ => []
  | n + 1, s =>
    match minCell s with
    | none => []
    | some c =>
      let comp := compOf s c
      comp :: ccPartsAux n (s \ comp)

/-- The list of 4-connected components (the *parts*) of a region, in order of
their least cell.  A shapely `explode` of a multi-part region yields exactly
these parts. -/
def ccParts (s : Region) : List Region := ccPartsAux s.card s

/-- The region is a single-part polygon (shapely geometry type `Polygon`
rather than `MultiPolygon`). -/
def isPolygonB (s : Region) : Bool := (ccParts s).length == 1

/-- All cells of the rectangle `[x0, x1] × [y0, y1]`. -/
def boxRegion (x0 x1 y0 y1 : Int) : Region := Finset.Icc x0 x1 ×ˢ Finset.Icc y0 y1

/-- The interior rings (holes) of a region: the bounded connected components
of its complement, computed inside a bounding box one cell wider than the
region.  A complement component is a hole exactly when it does not reach the
widened border. -/
def rings (s : Region) : List Region :=
  if (cellsSorted s).isEmpty then []
  else
    let xs := (cellsSorted s).map Prod.fst
    let ys := (cellsSorted s).map Prod.snd
    let x0 := xs.foldr min (xs.headD 0)
    let x1 := xs.foldr max (xs.headD 0)
    let y0 := ys.foldr min (ys.headD 0)
    let y1 := ys.foldr max (ys.headD 0)
    let box := boxRegion (x0 - 1) (x1 + 1) (y0 - 1) (y1 + 1)
    (ccParts (box \ s)).filter (fun comp => decide (comp ⊆ boxRegion x0 x1 y0 y1))

/-- geopandas `GeoSeries.interiors.tolist()[0]` on the one-row frame produced
by `dissolve()`: for a `Polygon` row it is the list of that polygon's interior
rings; for any other geometry type (in particular a `MultiPolygon`) geopandas
emits the warning `"Only Polygon objects have interior rings..."` (which the
source filters out) and yields `None`. -/
def interiorsRow0 (g : Region) : Option (List Region) :=
  if isPolygonB g then some (rings g) else none

/-! ## Python-level values and errors -/

/-- The Python exceptions the embedded checkers can raise. -/
inductive PyErr where
  | keyError
  | valueError
  | typeError
  | ioError
deriving DecidableEq

/-- A Python value as far as the checkers' `is None` tests observe it: the
pandas objects flowing through the cover checks are (one-row) series wrapping
a geometry, never the `None` object. -/
inductive PyVal where
  | none
  | series (g : Region)
deriving DecidableEq

/-- Python `x is None`. -/
def PyVal.isNone : PyVal → Bool
  | .none => true
  | .series _ => false

/-- ASCII lower-casing of one character (`str.lower()` on the identifiers the
code handles). -/
def lowerChar (c : Char) : Char :=
  if 65 ≤ c.toNat ∧ c.toNat ≤ 90 then Char.ofNat (c.toNat + 32) else c

/-- Python `s.lower()`. -/
def strLower (s : String) : String := ⟨s.data.map lowerChar⟩

/-- Python `s.startswith(p)`. -/
def strStartsWith (s p : String) : Bool := s.data.take p.data.length = p.data

/-! ## Layers and geometry validity -/

/-- One feature of a geometry layer: its geometry together with the validity
verdict the geometry library (`explain_validity`) returns for it.  OGC
validity of a feature is decided by the external library; the checkers only
consume the verdict. -/
structure Feature where
  geom : Region
  valid : Bool

/-- `validity_shp_zip` (geom_validation.py, lines 183-232): the number of
features of the layer whose geometry the library reports invalid
(`explain_validity(geometry) != "Valid Geometry"`).  The downstream checkers
only ever compare this count with `0`. -/
def validityShpZip (l : List Feature) : Nat :=
  (l.filter (fun f => !f.valid)).length

/-! ## `covered_mun_both` (check_relationships.py, lines 408-509)

The coverage check for the pair `PlochyRZV_p` + `KoridoryP_p` against the
boundary layer `ReseneUzemi_p`. -/

/-- The three layers the coverage check reads. -/
structure CoverPackage where
  plochyRzv : List Feature
  koridoryP : List Feature
  reseneUzemi : List Feature

/-- `Polygon(resene_uzemi.get_coordinates())`: the boundary polygon rebuilt
from the boundary layer's coordinates.  For a boundary layer holding one
polygon this is that polygon; it is modelled as the union of the layer's
feature geometries. -/
def reseneUzemiGeom (resene : List Feature) : Region :=
  dissolveL (resene.map Feature.geom)

/-- `plochy_rzv.sjoin(koridory_p)`: the geopandas inner spatial join — one row
per (left, right) pair of features whose geometries intersect, each row
carrying the left (PlochyRZV_p) geometry.  Left features intersecting no
right feature produce no row. -/
def sjoinLeftGeoms (ps ks : List Region) : List Region :=
  (ps.map (fun p => (ks.filter (fun k => gIntersects p k)).map (fun _ => p))).flatten

/-- `covered_mun_both(zip_dir, dest_dir_path, mun_code, export)`: returns the
error indicator.  Mirrors the source line by line:

* gate on `validity_shp_zip(...) == 0` for the three layers;
* `merged = plochy_rzv.sjoin(koridory_p)`, `dissolved = merged.dissolve()`;
* `diff = resene_uzemi_geom.difference(dissolved.geometry)` — pandas wraps
  the vectorised shapely difference back into a one-row series object, so
  `diff` is never the `None` object;
* `if diff is None:` prints the Ok line (adds nothing to `errors`); then
  `if diff is not None and export is True: ... errors += 1` and
  `else: ... errors += 1` add one error in either case;
* invalid geometries: `errors += 1`. -/
def coveredMunBoth (pkg : CoverPackage) (exp : Bool) : Nat :=
  if validityShpZip pkg.plochyRzv = 0 ∧ validityShpZip pkg.koridoryP = 0
      ∧ validityShpZip pkg.reseneUzemi = 0 then
    let reseneGeom := reseneUzemiGeom pkg.reseneUzemi
    let merged := sjoinLeftGeoms (pkg.plochyRzv.map Feature.geom)
      (pkg.koridoryP.map Feature.geom)
    let dissolved := dissolveL merged
    let diff : PyVal := PyVal.series (reseneGeom \ dissolved)
    if !diff.isNone && exp then 1 else 1
  else 1

/-- A package in which the covering layers exactly cover the boundary: the
boundary is the 2×2 square, `PlochyRZV_p` holds that same square, and
`KoridoryP_p` holds one cell of it (so the spatial join keeps the square). -/
def exactCoverPkg : CoverPackage where
  plochyRzv := [⟨{(0, 0), (1, 0), (0, 1), (1, 1)}, true⟩]
  koridoryP := [⟨{(0, 0)}, true⟩]
  reseneUzemi := [⟨{(0, 0), (1, 0), (0, 1), (1, 1)}, true⟩]

/-! ## `covered_mun_przv` (check_relationships.py, lines 512-611)

The coverage check run instead of `covered_mun_both` when `KoridoryP_p` is
missing: `PlochyRZV_p` alone against `ReseneUzemi_p`. -/

/-- `covered_mun_przv(zip_dir, dest_dir_path, mun_code, export)`: same shape
as `covered_mun_both` without the spatial join:

* gate on `validity_shp_zip(...) == 0` for `PlochyRZV_p` and `ReseneUzemi_p`;
* `dissolved = plochy_rzv.dissolve()`;
  `diff = resene_uzemi_geom.difference(dissolved.geometry)` — again a pandas
  series object, never `None`;
* `if diff is None:` prints the Ok line (adds nothing to `errors`); then
  `if diff is not None and export is True: ... errors += 1` and
  `else: ... errors += 1` add one error in either case;
* invalid geometries: `errors += 1`. -/
def coveredMunPrzv (pkg : CoverPackage) (exp : Bool) : Nat :=
  if validityShpZip pkg.plochyRzv = 0 ∧ validityShpZip pkg.reseneUzemi = 0 then
    let reseneGeom := reseneUzemiGeom pkg.reseneUzemi
    let dissolved := dissolveL (pkg.plochyRzv.map Feature.geom)
    let diff : PyVal := PyVal.series (reseneGeom \ dissolved)
    if !diff.isNone && exp then 1 else 1
  else 1

/-! ## `shp_within_mun` (check_relationships.py, lines 296-405) -/

/-- `shp_within_mun(zip_dir, dest_dir_path, mun_code, shp, export)`: counts
the features of the layer not fully within the rebuilt boundary polygon and
returns `len(geom_out)`.  When the layer has invalid geometries it only
prints `"... cannot be run due to invalid geometries."` and returns the
still-empty `geom_out`, i.e. `0`. -/
def shpWithinMunRel (shpL : List Feature) (mun : List Feature) (_exp : Bool) : Nat :=
  if validityShpZip shpL = 0 then
    let borders := reseneUzemiGeom mun
    -- `if shp_gdf.geometry[i].within(borders_polygon) is False:` — a scalar
    -- predicate against one polygon, hence a genuine Python bool
    let geomOut := ((shpL.map Feature.geom).filter (fun g => !gWithin g borders)).map
      (fun g => g \ borders)
    geomOut.length
  else 0

/-! ## `check_gaps` (check_relationships.py, lines 614-700) -/

/-- `check_gaps(zip_dir, dest_dir_path, mun_code, shp, export)`:

* gate on validity (the gated branch prints and leaves `errors = 0`);
* `dissolved = shp_gdf.dissolve()`;
  `interior = dissolved.geometry.interiors.tolist()[0]` — the interiors of
  the single dissolved row (`None` for a multi-part dissolve);
* `if interior is None or len(interior) == 0:` → Ok (0), otherwise
  `errors += 1` in both the export and the non-export branch. -/
def checkGapsRel (L : List Feature) (_exp : Bool) : Nat :=
  if validityShpZip L = 0 then
    let dissolved := dissolveL (L.map Feature.geom)
    match interiorsRow0 dissolved with
    | Option.none => 0
    | Option.some interior => if interior.length = 0 then 0 else 1
  else 0

/-- The gap polygons the export branch of `check_gaps` materialises
(`gaps_polygons = [Polygon(a) for a in interior]`): one polygon per interior
ring read by the check; empty whenever the check reports no gaps. -/
def checkGapsRelExported (L : List Feature) : List Region :=
  if validityShpZip L = 0 then
    match interiorsRow0 (dissolveL (L.map Feature.geom)) with
    | Option.none => []
    | Option.some interior => if interior.length = 0 then [] else interior
  else []

/-! ## `check_overlaps` (check_relationships.py, lines 853-951) -/

/-- `check_overlaps(zip_dir, dest_dir_path, mun_code, shp, export)`:

* gate on validity (the gated branch prints, `intersected` stays empty and
  `len(intersected) = 0` is returned);
* the first loop runs `for row in shp_gdf.geometry: if
  row.overlaps(shp_gdf.geometry).any():` — `row.overlaps(...)` is shapely's
  *scalar* predicate method, which coerces the vectorised result with
  `bool(...)`; its argument here is the geometry column of the whole layer,
  the vectorised result is a pandas series, and `bool` of a pandas series
  raises `ValueError` unconditionally, whatever the series' length — so the
  first iteration raises before `.any()` is ever reached, and the function's
  `except` clause prints and re-raises;
* only a layer with no feature at all (the loop body never runs) reaches the
  return statement, with `intersected` still empty. -/
def checkOverlapsRel (L : List Feature) (_exp : Bool) : Except PyErr Nat :=
  if validityShpZip L = 0 then
    match L with
    | [] => Except.ok 0
    | _ :: _ => Except.error PyErr.valueError
  else Except.ok 0

/-! ## Standardized layer names and `vu_within_uses`
(check_relationships.py, lines 1105-1234) -/

/-- Modelled from the spec: the fixed list of standardized layer type names
(`js_tables` lives in `src/models/output_tables.py`, which is not part of the
provided sources; the spec describes it as the fixed set of known domain
layer names).  Only membership of the names appearing in the embedded
checkers matters. -/
def jsTables : List String :=
  ["ReseneUzemi_p", "UzemniPrvkyRP_p", "ZastaveneUzemi_p", "PlochyRZV_p",
   "UzemniRezervy_p", "KoridoryP_p", "KoridoryN_p", "PlochyZmen_p",
   "PlochyPodm_p", "VpsVpoAs_p", "VpsVpoAs_l", "USES_p",
   "SystemSidelniZelene_p", "SystemVerProstr_p"]

/-- `shps_to_check = [shp for shp in js_tables if shp in shps_from_zip and
gpd.read_file(...).empty is False]`: the standardized layers present in the
zip and non-empty. -/
def shpsToCheckOf (shpsFromZip : List String) (nonEmptyShp : String → Bool) :
    List String :=
  jsTables.filter (fun s => decide (s ∈ shpsFromZip) && nonEmptyShp s)

/-- A feature of `VpsVpoAs_p` with its (lower-cased) `id` attribute. -/
structure VpsFeature where
  id : String
  geom : Region
  valid : Bool

/-- Validity count of a `VpsVpoAs_p` layer. -/
def vpsValidity (l : List VpsFeature) : Nat := (l.filter (fun f => !f.valid)).length

/-- The package data `vu_within_uses` reads. -/
structure VuPackage where
  shpsFromZip : List String
  nonEmptyShp : String → Bool
  vps : List VpsFeature
  uses : List Feature

/-- `vu_within_uses(zip_dir, dest_dir_path, mun_code, shp, export)`:

* runs only for `shp == "VpsVpoAs_p"` with a present, non-empty `USES_p`;
* gate on validity of both layers (gated branch prints, returns 0);
* selects the features whose `id` starts with `"VU"` and loops over
  `range(vpsvpoas_vu.geometry.count())`;
* the loop guard is `if vpsvpoas_vu.geometry[i].within(uses_gdf.geometry) is
  False:` — `within` is shapely's *scalar* predicate method, which coerces
  the vectorised result with `bool(...)`; its argument is the `USES_p`
  geometry column, the vectorised result is a pandas series, and `bool` of a
  pandas series raises `ValueError` unconditionally, whatever the series'
  length (a one-feature `USES_p` included) — so the first iteration raises
  and the function's `except` clause prints and re-raises;
* hence the check only completes when no feature's `id` starts with `"VU"`
  (the loop body never runs): the Ok line prints and `errors = 0` is
  returned.  The `errors += 1` (export) and `errors += 0` (no-export,
  check_relationships.py line 1218) arms are unreachable. -/
def vuWithinUses (pkg : VuPackage) (shp : String) (_exp : Bool) : Except PyErr Nat :=
  let shpsToCheck := shpsToCheckOf pkg.shpsFromZip pkg.nonEmptyShp
  if shp = "VpsVpoAs_p" ∧ "USES_p" ∈ shpsToCheck then
    if vpsValidity pkg.vps = 0 ∧ validityShpZip pkg.uses = 0 then
      let vu := pkg.vps.filter (fun f => strStartsWith f.id "VU")
      if vu.isEmpty then Except.ok 0
      else Except.error PyErr.valueError
    else Except.ok 0
  else Except.ok 0

/-! ## The orchestrator's aggregation (checking_process.py, lines 84-194)

`check_layers` sequences every checker over every layer and rolls the results
up into per-layer statuses, a relationship status and one package status.
The checker invocations themselves are I/O (they re-read the package from the
zip file); the aggregation is embedded over a record carrying each checker's
returned counts, mirroring the `e = checker(...); errors += e` chains. -/

/-- The counts returned by the ten per-layer checker calls of the main loop
(checking_process.py, lines 87-106), in call order. -/
structure LayerOutcome where
  validity : Nat
  withinMun : Nat
  gaps : Nat
  overlaps : Nat
  vuUses : Nat
  pZu : Nat
  kZu : Nat
  attrsExist : Nat
  attrsType : Nat
  allowedVals : Nat

/-- The per-layer error accumulator `errors` after the ten `errors += e`. -/
def layerErrors (o : LayerOutcome) : Nat :=
  o.validity + o.withinMun + o.gaps + o.overlaps + o.vuUses + o.pZu + o.kZu +
    o.attrsExist + o.attrsType + o.allowedVals

/-- The three statuses the run prints. -/
inductive Status where
  | ok
  | warning
  | error
deriving DecidableEq

/-- One completed run of `check_layers` (no checker invocation raised): the
package inventory (`shpsFromZip` and the features `layerOf` each layer
holds), the counts the per-layer checker calls returned, the (errors,
warnings) pairs `check_gaps_covered` and `overlaps_covered_mun` returned,
and the export flag.  The `covered_mun_both` / `covered_mun_przv` calls of
the relationship block are not recorded but embedded below, reading the same
package layers. -/
structure RunInput where
  shpsFromZip : List String
  layerOf : String → List Feature
  outcome : String → LayerOutcome
  gapsCovRes : Nat × Nat
  overlapsCovRes : Nat × Nat
  exp : Bool

/-- `gpd.read_file(...).empty is False` for one layer of the package. -/
def runNonEmpty (r : RunInput) (s : String) : Bool := !(r.layerOf s).isEmpty

/-- The standardized, non-empty layers the main loop iterates over. -/
def runShpsToCheck (r : RunInput) : List String :=
  shpsToCheckOf r.shpsFromZip (runNonEmpty r)

/-- The three layers the `covered_mun_*` relationship checks read from the
package. -/
def covPkgOf (r : RunInput) : CoverPackage :=
  ⟨r.layerOf "PlochyRZV_p", r.layerOf "KoridoryP_p", r.layerOf "ReseneUzemi_p"⟩

/-- `if errors == 0: print("Status: Ok") else: status += 1; print("Status:
Error")` — the status printed for one layer. -/
def layerStatus (r : RunInput) (s : String) : Status :=
  if layerErrors (r.outcome s) = 0 then Status.ok else Status.error

/-- The `errors` accumulator of the relationship block (checking_process.py,
lines 120-141).  Note `if "PlochyRZV_p" and "KoridoryP_p" in shps_to_check:`
— the string literal is truthy, so Python only tests membership of
`"KoridoryP_p"`.  The `covered_mun_both` / `covered_mun_przv` summands are
the embedded checks applied to the run's own package; the
`check_gaps_covered` and `overlaps_covered_mun` summands are the recorded
first components of the run's returned pairs. -/
def relErrors (r : RunInput) : Nat :=
  if "KoridoryP_p" ∈ runShpsToCheck r then
    coveredMunBoth (covPkgOf r) r.exp + r.gapsCovRes.1 + r.overlapsCovRes.1
  else if "PlochyRZV_p" ∈ runShpsToCheck r ∧ "KoridoryP_p" ∉ runShpsToCheck r then
    coveredMunPrzv (covPkgOf r) r.exp
  else 0

/-- The `warnings` accumulator of the relationship block: fed only by the
second components of `check_gaps_covered` and `overlaps_covered_mun`; the
`covered_mun_przv` branch prints warning lines but adds nothing. -/
def relWarnings (r : RunInput) : Nat :=
  if "KoridoryP_p" ∈ runShpsToCheck r then r.gapsCovRes.2 + r.overlapsCovRes.2
  else 0

/-- `if errors == 0 and warnings == 0: Ok / elif errors == 0 and warnings >
0: Warning / else: status += 1; Error` — the printed relationship status. -/
def relStatus (r : RunInput) : Status :=
  if relErrors r = 0 ∧ relWarnings r = 0 then Status.ok
  else if relErrors r = 0 ∧ relWarnings r > 0 then Status.warning
  else Status.error

/-- `shps_to_check = [shp for shp in shps_to_check if shp not in js_tables
and shp.startswith("X")]` (checking_process.py, lines 153-155): the
non-standardized layers to re-check, filtered from the *standardized* list. -/
def nonStdShps (r : RunInput) : List String :=
  (runShpsToCheck r).filter (fun s => decide (s ∉ jsTables) && strStartsWith s "X")

/-- The four checker calls of the non-standardized loop. -/
def nonStdErrors (r : RunInput) (s : String) : Nat :=
  (r.outcome s).validity + (r.outcome s).withinMun + (r.outcome s).gaps +
    (r.outcome s).overlaps

/-- The global `status` counter: one increment per layer with errors, one for
an Error-level relationship block, one per failing non-standardized layer. -/
def statusCounter (r : RunInput) : Nat :=
  ((runShpsToCheck r).filter (fun s => decide (layerErrors (r.outcome s) ≠ 0))).length
    + (if relStatus r = Status.error then 1 else 0)
    + ((nonStdShps r).filter (fun s => decide (nonStdErrors r s ≠ 0))).length

/-- `if status == 0: print("Status: Ok") else: print("Status: Error")` — the
final package status (checking_process.py, lines 184-187).  There is no
`Warning` arm. -/
def packageStatus (r : RunInput) : Status :=
  if statusCounter r = 0 then Status.ok else Status.error

/-! ## Exception propagation through the checker sequence
(run_process.py, lines 86-119) -/

/-- The orchestrator's checker chain: each `e = checker(...)` may raise (every
checker ends its `except` clause with `raise`), and `check_layers` wraps the
calls in no `try`, so the first exception propagates and the remaining
checkers never run; otherwise `errors += e` accumulates the counts. -/
def runCheckerSequence : List (Except PyErr Nat) → Except PyErr Nat
  | [] => Except.ok 0
  | c :: cs =>
    match c with
    | Except.error e => Except.error e
    | Except.ok n =>
      match runCheckerSequence cs with
      | Except.error e => Except.error e
      | Except.ok m => Except.ok (n + m)

/-- Decidable equality of checker results (used only to evaluate concrete
outcomes). -/
instance : DecidableEq (Except PyErr Nat) := fun a b =>
  match a, b with
  | Except.ok n, Except.ok m => decidable_of_iff (n = m) (by simp)
  | Except.error e, Except.error f => decidable_of_iff (e = f) (by simp)
  | Except.ok _, Except.error _ => isFalse (by simp)
  | Except.error _, Except.ok _ => isFalse (by simp)

/-! ## `allowed_values` (check_records.py, lines 11-334)

The value-domain check.  A layer is a table: named columns of cells, each
cell null (`None`, after the `NaN → None` normalisation of line 44), a string
or an integer.  The permitted-value tables are transcribed from
`src/models/values.py` and the mandatory-attribute lists from
`src/models/attributes.py`. -/

/-- A cell value of an attribute table. -/
inductive PV where
  | null
  | s (v : String)
  | i (v : Int)
deriving DecidableEq

/-- A named attribute column. -/
structure Col where
  name : String
  cells : List PV

/-- A layer's attribute table (`shp` is the shapefile name). -/
structure RecLayer where
  shp : String
  cols : List Col

/-- pandas `Series.count()`: the number of non-null cells of the column. -/
def colCount (c : Col) : Nat := (c.cells.filter (fun v => decide (v ≠ PV.null))).length

/-- `shp_gdf[attr][row]`: positional cell access. -/
def getCell (c : Col) (row : Nat) : PV := c.cells.getD row PV.null

/-- `shp_gdf[name]`: column lookup by exact, case-sensitive name; a missing
column raises `KeyError`. -/
def findCol (l : RecLayer) (name : String) : Option Col :=
  l.cols.find? (fun c => c.name == name)

/-- `attributes` (src/models/attributes.py): mandatory attribute names per
layer type, keyed by the lower-cased layer name. -/
def attributesTable : List (String × List String) :=
  [("reseneuzemi_p", ["obec_kod"]),
   ("uzemniprvkyrp_p", ["id"]),
   ("zastaveneuzemi_p", ["obec_kod"]),
   ("plochyrzv_p", ["cash", "typ", "index"]),
   ("uzemnirezervy_p", ["id", "typ"]),
   ("koridoryp_p", ["id"]),
   ("koridoryn_p", ["id"]),
   ("plochyzmen_p", ["id", "etapizace"]),
   ("plochypodm_p", ["id", "datum"]),
   ("vpsvpoas_p", ["id"]),
   ("vpsvpoas_l", ["id"]),
   ("uses_p", ["cash", "typ", "oznaceni"]),
   ("systemsidelnizelene_p", ["obec_kod"]),
   ("systemverprostr", ["obec_kod"])]

/-- `attributes[shp.lower()]`; `none` models the `KeyError` for a key the
dictionary lacks. -/
def attributesOf (shpLower : String) : Option (List String) :=
  (attributesTable.find? (fun p => p.1 == shpLower)).map Prod.snd

/-- `values["obecne"]["cash"]`. -/
def obecneCash : List PV := [PV.i 1, PV.i 2]

/-- `values["obecne"]["typ"]` (src/models/values.py, lines 4-80). -/
def obecneTyp : List String :=
  ["BU", "BV", "BI", "BH", "BX", "RU", "RI", "RZ", "RO", "RH", "RX",
   "OU", "OV", "OK", "OS", "OL", "OH", "OX", "PU", "PX",
   "ZU", "ZP", "ZZ", "ZO", "ZS", "ZK", "ZX", "SU", "SV", "SM", "SC", "SX",
   "DU", "DS", "DD", "DV", "DL", "DK", "DX", "TU", "TW", "TE", "TS", "TO", "TX",
   "VU", "VT", "VL", "VD", "VS", "VZ", "VE", "VX", "HU", "HX",
   "WU", "WT", "WH", "WX", "AU", "AP", "AT", "AX", "LU", "LX",
   "NU", "NX", "MU", "MX", "GU", "GD", "GZ", "GX", "XZ", "XX"]

/-- `values["obecne"]["typ"]` as cell values. -/
def obecneTypPV : List PV := obecneTyp.map PV.s

/-- The `values[<layer>]["id"]` prefix tables.  `none` models the `KeyError`
for a key `values` lacks; note the dictionary key is `"uzemniprvkyrp_p"`
while check_records.py line 75 matches the layer name `"uzemiprvkyrp_p"`, so
that branch's own lookup misses. -/
def valuesIdOf (shpLower : String) : Option (List String) :=
  if shpLower = "uzemniprvkyrp_p" then some ["U."]
  else if shpLower = "uzemnirezervy_p" then some ["R."]
  else if shpLower = "koridoryp_p" then some ["CPU.", "CPZ."]
  else if shpLower = "koridoryn_p" then some ["CNU.", "CNZ."]
  else if shpLower = "plochyzmen_p" then some ["Z.", "P.", "K."]
  else if shpLower = "plochypodm_p" then some ["RP.", "US.", "DO.", "DR.", "DU."]
  else none

/-- `values["plochyzmen_p"]["etapizace"] = ["E", None]` — this rule allows
null explicitly. -/
def plochyzmenEtapizace : List PV := [PV.s "E", PV.null]

/-- `values["plochypodm_p"]` has only the `"id"` entry; the `"datum"` key the
datum rule reads is absent, so that access raises `KeyError`. -/
def valuesPlochypodm : List (String × List String) :=
  [("id", ["RP.", "US.", "DO.", "DR.", "DU."])]

/-- `values["vpsvpoas"]["id"]`. -/
def vpsvpoasId : List String :=
  ["VD.", "PD.", "VPD.", "VT.", "PT.", "VPT.", "VK.", "VR.", "VU.", "VG.",
   "VB.", "VA.", "PO.", "PP."]

/-- `values["uses_p"]["typ"]`. -/
def usesTypPV : List PV :=
  (["NRBK", "NRBC", "RBK", "RBCNRBK", "RBC", "LBK", "LBCNRBK", "LBCRBK",
    "LBC"]).map PV.s

/-- `values["uses_p"]["oznaceni"]`. -/
def usesOznaceni : List String :=
  ["NRBK.", "NRBC.", "RBK.", "RBCNRBK.", "RBC.", "LBK.", "LBCNRBK.",
   "LBCRBK.", "LBC."]

/-- Python string slicing `v[:n]`; slicing a non-string cell raises
`TypeError` (the source always guards null first, so the null case is only
reached for malformed rules). -/
def pvSlice (v : PV) (n : Nat) : Except PyErr String :=
  match v with
  | PV.s t => Except.ok (t.take n)
  | PV.null => Except.error PyErr.typeError
  | PV.i _ => Except.error PyErr.typeError

/-- Sum a fallible per-row count over `range n` (one `for row in
range(...)` loop body per row). -/
def sumRowsM (n : Nat) (f : Nat → Except PyErr Nat) : Except PyErr Nat :=
  (List.range n).foldlM (fun acc row => do
    let v ← f row
    pure (acc + v)) 0

/-- The membership-style loops (`if shp_gdf[attr][row] in <list>: pass else:
violation`): the number of reached rows whose cell is outside the list.  A
null cell is never in a list of strings/ints, so it counts — when reached. -/
def notInListCount (allowed : List PV) (c : Col) : Nat :=
  ((List.range (colCount c)).filter (fun row => decide (getCell c row ∉ allowed))).length

/-- The `obec_kod == mun_code` loops of the first branch (check_records.py,
lines 57-74). -/
def eqMunCodeCount (munCode : Int) (c : Col) : Nat :=
  ((List.range (colCount c)).filter (fun row => decide (getCell c row ≠ PV.i munCode))).length

/-- One row of the id-prefix branches (`None` → violation; else `v[:n] in
values[shp.lower()]["id"]`); the slice is evaluated before the dictionary
lookup, as in Python. -/
def idPrefixRow (shpLower : String) (n : Nat) (v : PV) : Except PyErr Nat :=
  if v = PV.null then Except.ok 1
  else do
    let p ← pvSlice v n
    match valuesIdOf shpLower with
    | Option.none => Except.error PyErr.keyError
    | Option.some allowed => pure (if p ∈ allowed then 0 else 1)

/-- One row of the PlochyRZV_p `index` rule (check_records.py, lines
111-126): `if v is not None and shp_gdf["Typ"][row] == "AP": ... elif v is
not None and shp_gdf["Typ"][row] == "LU": ... else: pass`.  A null cell
falls straight to `pass`; a non-null cell forces the (case-sensitive) lookup
of column `"Typ"`. -/
def plochyrzvIndexRow (l : RecLayer) (c : Col) (row : Nat) : Except PyErr Nat :=
  let v := getCell c row
  if v = PV.null then Except.ok 0
  else
    match findCol l "Typ" with
    | Option.none => Except.error PyErr.keyError
    | Option.some typCol =>
      let t := getCell typCol row
      if t = PV.s "AP" then Except.ok (if v ∈ [PV.s "p", PV.s "t"] then 0 else 1)
      else if t = PV.s "LU" then
        Except.ok (if v ∈ [PV.s "h", PV.s "o", PV.s "z"] then 0 else 1)
      else Except.ok 0

/-- The first condition of the PlochyPodm_p `datum` rule (check_records.py,
lines 228-233): `shp_gdf[attr][row] == date.today().strftime("%Y-%m-%d") and
shp_gdf["id"][row] is not None and shp_gdf["id"][row][:3] in
values[shp.lower()][attr][:2]`, with Python's left-to-right short-circuit
evaluation; the third conjunct reads the missing `"datum"` key. -/
def datumCondToday (l : RecLayer) (today : String) (row : Nat) (v : PV) :
    Except PyErr Bool :=
  if v ≠ PV.s today then Except.ok false
  else
    match findCol l "id" with
    | Option.none => Except.error PyErr.keyError
    | Option.some idCol =>
      if getCell idCol row = PV.null then Except.ok false
      else
        match valuesPlochypodm.find? (fun p => p.1 == "datum") with
        | Option.none => Except.error PyErr.keyError
        | Option.some pr => do
          let p ← pvSlice (getCell idCol row) 3
          pure (p ∈ pr.2.take 2)

/-- The second condition of the `datum` rule (lines 235-239): `shp_gdf[attr]
[row] is None and shp_gdf["id"][row] is not None and shp_gdf["id"][row][:3]
in values[shp.lower()][attr][2:]`. -/
def datumCondNull (l : RecLayer) (row : Nat) (v : PV) : Except PyErr Bool :=
  if v ≠ PV.null then Except.ok false
  else
    match findCol l "id" with
    | Option.none => Except.error PyErr.keyError
    | Option.some idCol =>
      if getCell idCol row = PV.null then Except.ok false
      else
        match valuesPlochypodm.find? (fun p => p.1 == "datum") with
        | Option.none => Except.error PyErr.keyError
        | Option.some pr => do
          let p ← pvSlice (getCell idCol row) 3
          pure (p ∈ pr.2.drop 2)

/-- One row of the `datum` rule: neither condition satisfied means a
violation. -/
def plochypodmDatumRow (l : RecLayer) (c : Col) (today : String) (row : Nat) :
    Except PyErr Nat := do
  let v := getCell c row
  if (← datumCondToday l today row v) then pure 0
  else if (← datumCondNull l row v) then pure 0
  else pure 1

/-- One row of the VpsVpoAs branch (check_records.py, lines 244-259): null →
violation; else `v[:3] in values["vpsvpoas"]["id"] or v[:4] in
values["vpsvpoas"]["id"]`. -/
def vpsvpoasRow (v : PV) : Except PyErr Nat :=
  if v = PV.null then Except.ok 1
  else do
    let p3 ← pvSlice v 3
    if p3 ∈ vpsvpoasId then pure 0
    else do
      let p4 ← pvSlice v 4
      pure (if p4 ∈ vpsvpoasId then 0 else 1)

/-- One row of the USES_p `oznaceni` rule (lines 279-295): null → violation;
else one of the 4/5/7/8-character prefixes must be in the table. -/
def usesOznaceniRow (v : PV) : Except PyErr Nat :=
  if v = PV.null then Except.ok 1
  else do
    let p4 ← pvSlice v 4
    if p4 ∈ usesOznaceni then pure 0
    else do
      let p5 ← pvSlice v 5
      if p5 ∈ usesOznaceni then pure 0
      else do
        let p7 ← pvSlice v 7
        if p7 ∈ usesOznaceni then pure 0
        else do
          let p8 ← pvSlice v 8
          pure (if p8 ∈ usesOznaceni then 0 else 1)

/-- The violations one included column contributes: the big `if shp.lower()
== ... and attr ... :` dispatch of check_records.py lines 56-295, branch for
branch.  The first three branches compare `attr.lower()` against `missing`,
the later ones compare the raw `attr`; the inner `attr == "..."` tests are
all case-sensitive. -/
def valueViolationsForCol (l : RecLayer) (munCode : Int) (today : String)
    (missing : List String) (c : Col) : Except PyErr Nat :=
  let shpL := strLower l.shp
  let attr := c.name
  if (shpL = "reseneuzemi_p" ∨ shpL = "zastaveneuzemi_p"
      ∨ shpL = "systemsidelnizelene_p" ∨ shpL = "systemverprostr_p")
      ∧ strLower attr ∉ missing then
    Except.ok (eqMunCodeCount munCode c)
  else if shpL = "uzemiprvkyrp_p" ∧ strLower attr ∉ missing then
    sumRowsM (colCount c) (fun row => idPrefixRow shpL 2 (getCell c row))
  else if shpL = "plochyrzv_p" ∧ strLower attr ∉ missing then
    if attr = "cash" then Except.ok (notInListCount obecneCash c)
    else if attr = "typ" then Except.ok (notInListCount obecneTypPV c)
    else if attr = "index" then
      sumRowsM (colCount c) (fun row => plochyrzvIndexRow l c row)
    else Except.ok 0
  else if shpL = "uzemnirezervy_p" ∧ attr ∉ missing then
    if attr = "id" then
      sumRowsM (colCount c) (fun row => idPrefixRow shpL 2 (getCell c row))
    else if attr = "typ" then Except.ok (notInListCount obecneTypPV c)
    else Except.ok 0
  else if shpL = "koridoryp_p" ∧ attr ∉ missing then
    if attr = "id" then
      sumRowsM (colCount c) (fun row => idPrefixRow shpL 4 (getCell c row))
    else Except.ok 0
  else if shpL = "koridoryn_p" ∧ attr ∉ missing then
    if attr = "id" then
      sumRowsM (colCount c) (fun row => idPrefixRow shpL 4 (getCell c row))
    else Except.ok 0
  else if shpL = "plochyzmen_p" ∧ attr ∉ missing then
    if attr = "id" then
      sumRowsM (colCount c) (fun row => idPrefixRow shpL 2 (getCell c row))
    else if attr = "etapizace" then Except.ok (notInListCount plochyzmenEtapizace c)
    else Except.ok 0
  else if shpL = "plochypodm_p" ∧ attr ∉ missing then
    if attr = "id" then
      sumRowsM (colCount c) (fun row => idPrefixRow shpL 3 (getCell c row))
    else if attr = "datum" then
      sumRowsM (colCount c) (fun row => plochypodmDatumRow l c today row)
    else Except.ok 0
  else if strStartsWith shpL "vpsvpoas" = true ∧ attr ∉ missing then
    sumRowsM (colCount c) (fun row => vpsvpoasRow (getCell c row))
  else if shpL = "uses_p" ∧ attr ∉ missing then
    if attr = "cash" then Except.ok (notInListCount obecneCash c)
    else if attr = "typ" then Except.ok (notInListCount usesTypPV c)
    else if attr = "oznaceni" then
      sumRowsM (colCount c) (fun row => usesOznaceniRow (getCell c row))
    else Except.ok 0
  else Except.ok 0

/-- `allowed_values(zip_dir, dest_dir_path, mun_code, shp, export_values)`:

* `included` — the columns whose lower-cased name is among the layer type's
  mandatory attributes; `missing` — the mandatory names with no such column;
* one dispatch per included column (see `valueViolationsForCol`);
* returns `len(wrong_values_geom)` — the total number of violating cells.

The `today` argument stands for `date.today().strftime("%Y-%m-%d")`, read
from the ambient clock by the source; the `export_values` flag only selects
the printed/exported output. -/
def allowedValues (l : RecLayer) (munCode : Int) (today : String)
    (_exportValues : Bool) : Except PyErr Nat :=
  match attributesOf (strLower l.shp) with
  | Option.none => Except.error PyErr.keyError
  | Option.some attrsList =>
    let included := l.cols.filter (fun c => decide (strLower c.name ∈ attrsList))
    let includedLower := included.map (fun c => strLower c.name)
    let missing := attrsList.filter (fun a => decide (a ∉ includedLower))
    included.foldlM (fun acc c => do
      let n ← valueViolationsForCol l munCode today missing c
      pure (acc + n)) 0

/-! ## Concrete packages and layers used to settle the claims -/

/-- A 2×2 square. -/
def sqA : Region := {(0, 0), (1, 0), (0, 1), (1, 1)}

/-- A layer holding a feature and an exact duplicate of it. -/
def dupLayer : List Feature := [⟨sqA, true⟩, ⟨sqA, true⟩]

/-- Two dominoes sharing one cell of interior: a strict overlap. -/
def overlapPairLayer : List Feature :=
  [⟨{(0, 0), (1, 0)}, true⟩, ⟨{(1, 0), (2, 0)}, true⟩]

/-- A layer whose first feature is reported invalid. -/
def invalidLayer : List Feature := [⟨sqA, false⟩, ⟨sqA, true⟩]

/-- An annulus: the 3×3 square without its centre, one polygon with one
interior ring (the centre cell). -/
def ringReg : Region :=
  {(0, 0), (1, 0), (2, 0), (0, 1), (2, 1), (0, 2), (1, 2), (2, 2)}

/-- A far-away single cell, disconnected from the annulus. -/
def farCell : Region := {(4, 0)}

/-- A layer dissolving to a *multi-part* geometry whose first part carries an
interior ring: the annulus plus the far cell. -/
def gapMultiLayer : List Feature := [⟨ringReg, true⟩, ⟨farCell, true⟩]

/-- A layer dissolving to a single polygon with one interior ring. -/
def gapSingleLayer : List Feature := [⟨ringReg, true⟩]

/-- A package for the VU-within-USES check: one `VU` feature of `VpsVpoAs_p`
sticking out of the single `USES_p` feature. -/
def vuPkg : VuPackage where
  shpsFromZip := ["VpsVpoAs_p", "USES_p"]
  nonEmptyShp := fun _ => true
  vps := [⟨"VU1", {(0, 0), (1, 0)}, true⟩]
  uses := [⟨{(0, 0)}, true⟩]

/-- A VU-free package for the VU-within-USES check: the single `VpsVpoAs_p`
feature's `id` does not start with `VU`, so the check's loop never runs. -/
def noVuPkg : VuPackage where
  shpsFromZip := ["VpsVpoAs_p", "USES_p"]
  nonEmptyShp := fun _ => true
  vps := [⟨"PD1", {(0, 0)}, true⟩]
  uses := [⟨{(0, 0)}, true⟩]

/-- A `PlochyPodm_p` attribute table with a well-formed id and a concrete
`datum` value. -/
def podmLayer : RecLayer :=
  ⟨"PlochyPodm_p", [⟨"id", [PV.s "RP.1"]⟩, ⟨"datum", [PV.s "2023-01-02"]⟩]⟩

/-- A one-row `PlochyRZV_p` attribute table whose `typ` and `index` cells are
both null. -/
def rzvNullLayer : RecLayer :=
  ⟨"PlochyRZV_p", [⟨"typ", [PV.null]⟩, ⟨"index", [PV.null]⟩]⟩

/-- A two-row `PlochyRZV_p` table: `typ` is null in row 0 and well-formed in
row 1 (so row 0 lies below the non-null count and is reached). -/
def rzvReachedNullLayer : RecLayer :=
  ⟨"PlochyRZV_p", [⟨"typ", [PV.null, PV.s "AP"]⟩]⟩

/-! ## Helper lemmas about the geometry model -/

theorem cellsSorted_coe (s : Region) : (↑(cellsSorted s) : Multiset Cell) = s.val := by
  rcases s with ⟨m, hm⟩
  induction m using Quot.inductionOn with
  | h l =>
    simpa [cellsSorted, Multiset.quot_mk_to_coe, Multiset.coe_eq_coe] using
      List.perm_insertionSort cellLe l

theorem gEquals_eq_true_iff (a b : Region) : gEquals a b = true ↔ a = b := by
  unfold gEquals
  rw [decide_eq_true_eq]
  constructor
  · intro h
    apply Finset.val_injective
    rw [← cellsSorted_coe a, ← cellsSorted_coe b, h]
  · intro h; rw [h]

theorem mem_dissolveL (c : Cell) (l : List Region) :
    c ∈ dissolveL l ↔ ∃ g ∈ l, c ∈ g := by
  induction l with
  | nil => simp [dissolveL]
  | cons g t ih =>
    simp only [dissolveL, List.foldr_cons, Finset.mem_union, List.mem_cons]
    rw [show t.foldr (· ∪ ·) ∅ = dissolveL t from rfl, ih]
    constructor
    · rintro (h | ⟨g', hg', hc⟩)
      · exact ⟨g, Or.inl rfl, h⟩
      · exact ⟨g', Or.inr hg', hc⟩
    · rintro ⟨g', (rfl | hg'), hc⟩
      · exact Or.inl hc
      · exact Or.inr ⟨g', hg', hc⟩

theorem dissolveL_perm {l l' : List Region} (h : l.Perm l') :
    dissolveL l = dissolveL l' := by
  ext c
  rw [mem_dissolveL, mem_dissolveL]
  constructor
  · rintro ⟨g, hg, hc⟩; exact ⟨g, h.mem_iff.mp hg, hc⟩
  · rintro ⟨g, hg, hc⟩; exact ⟨g, h.mem_iff.mpr hg, hc⟩

theorem validityShpZip_perm {L L' : List Feature} (h : L.Perm L') :
    validityShpZip L = validityShpZip L' := by
  unfold validityShpZip
  exact (h.filter _).length_eq

theorem nonStdShps_eq_nil (r : RunInput) : nonStdShps r = [] := by
  unfold nonStdShps
  apply List.filter_eq_nil_iff.mpr
  intro s hs
  have hmem : s ∈ jsTables := by
    unfold runShpsToCheck shpsToCheckOf at hs
    exact (List.mem_filter.mp hs).1
  simp [hmem]

theorem coveredMunBoth_eq_one (pkg : CoverPackage) (e : Bool) :
    coveredMunBoth pkg e = 1 := by
  unfold coveredMunBoth
  split
  · simp only [ite_self]
  · rfl

theorem coveredMunPrzv_eq_one (pkg : CoverPackage) (e : Bool) :
    coveredMunPrzv pkg e = 1 := by
  unfold coveredMunPrzv
  split
  · simp only [ite_self]
  · rfl

theorem rel_no_warning (r : RunInput) : ¬(relErrors r = 0 ∧ 0 < relWarnings r) := by
  rintro ⟨he, hw⟩
  by_cases hk : "KoridoryP_p" ∈ runShpsToCheck r
  · unfold relErrors at he
    rw [if_pos hk, coveredMunBoth_eq_one] at he
    exact absurd he (by omega)
  · unfold relWarnings at hw
    rw [if_neg hk] at hw
    exact absurd hw (by omega)

theorem relStatus_ne_warning (r : RunInput) : relStatus r ≠ Status.warning := by
  unfold relStatus
  split_ifs with h1 h2
  · exact fun h => Status.noConfusion h
  · exact absurd h2 (rel_no_warning r)
  · exact fun h => Status.noConfusion h

/-! ## C1 -/

/-- C1: the spec says the coverage check for `PlochyRZV_p` + `KoridoryP_p`
against `ReseneUzemi_p` reports Ok (zero deficit, contributing no error)
exactly when the union of the covering layers equals the boundary.  In the
code the Ok branch is guarded by `if diff is None:`, but `diff` is a pandas
series object and never `None`, so `covered_mun_both` returns the error
indicator `1` for *every* package and both export flags — including
`exactCoverPkg`, whose dissolved join exactly equals the boundary polygon. -/
theorem c1_covered_mun_both_always_error :
    gEquals
        (dissolveL (sjoinLeftGeoms (exactCoverPkg.plochyRzv.map Feature.geom)
          (exactCoverPkg.koridoryP.map Feature.geom)))
        (reseneUzemiGeom exactCoverPkg.reseneUzemi) = true
      ∧ coveredMunBoth exactCoverPkg false = 1
      ∧ coveredMunBoth exactCoverPkg true = 1
      ∧ ∀ (pkg : CoverPackage) (e : Bool), coveredMunBoth pkg e = 1 := by
  refine ⟨by decide, by decide, by decide, ?_⟩
  intro pkg e
  unfold coveredMunBoth
  split
  · simp only [ite_self]
  · rfl

/-! ## C3 -/

/-- C3 counterexample: the claim says every topological check gated by an
invalid geometry contributes a nonzero error indication to the layer's
status.  On a layer with one invalid feature, the gap, overlap and
containment checks of check_relationships.py all print their skipped message
but return `0`, contributing nothing. -/
theorem c3_gated_checks_return_zero :
    validityShpZip invalidLayer = 1
      ∧ checkGapsRel invalidLayer false = 0
      ∧ checkOverlapsRel invalidLayer false = Except.ok 0
      ∧ shpWithinMunRel invalidLayer [⟨sqA, true⟩] false = 0 := by
  decide

/-- C3 amended: on a layer with invalid geometry the gap, overlap and
containment checks skip their positive logic, but each returns `0` — no
error indication reaches the layer status. -/
theorem c3_gating_skips_and_returns_zero (L mun : List Feature) (e : Bool)
    (h : validityShpZip L ≠ 0) :
    checkGapsRel L e = 0 ∧ checkOverlapsRel L e = Except.ok 0
      ∧ shpWithinMunRel L mun e = 0 := by
  refine ⟨?_, ?_, ?_⟩
  · unfold checkGapsRel; rw [if_neg (by simpa using h)]
  · unfold checkOverlapsRel; rw [if_neg (by simpa using h)]
  · unfold shpWithinMunRel; rw [if_neg (by simpa using h)]

/-- Witness for the C3 amended theorem at the concrete invalid layer. -/
theorem c3_gating_skips_and_returns_zero_witness :
    validityShpZip invalidLayer ≠ 0
      ∧ (checkGapsRel invalidLayer false = 0
        ∧ checkOverlapsRel invalidLayer false = Except.ok 0
        ∧ shpWithinMunRel invalidLayer [⟨sqA, true⟩] false = 0) :=
  ⟨by decide, c3_gating_skips_and_returns_zero invalidLayer [⟨sqA, true⟩] false (by decide)⟩

/-! ## C6 -/

/-- C6: with every precondition satisfied (both layers present, non-empty and
valid, the selector attribute present, one feature matching `VU`), a `VU`
feature sticking out of `USES_p` must yield a nonzero error result
*regardless of the export flag*.  The code never produces that result: its
loop guard coerces the pandas series `within(uses_gdf.geometry)` with
`bool(...)`, which raises `ValueError` on the very first iteration — on
`vuPkg`, whose one `USES_p` feature indeed does not contain the `VU`
feature, under both export flags — and the `except` clause re-raises, so
`vu_within_uses` crashes whenever a `VU` feature exists.  It returns `0`
only when no `id` starts with `VU` (the loop body never runs), as on
`noVuPkg`.  (The unreachable reporting arms are also wrong in themselves:
the no-export one executes `errors += 0`, check_relationships.py line
1218.) -/
theorem c6_vu_within_uses_never_detects :
    vuWithinUses vuPkg "VpsVpoAs_p" false = Except.error PyErr.valueError
      ∧ vuWithinUses vuPkg "VpsVpoAs_p" true = Except.error PyErr.valueError
      ∧ gWithin ({(0, 0), (1, 0)} : Region) {(0, 0)} = false
      ∧ vpsValidity vuPkg.vps = 0
      ∧ validityShpZip vuPkg.uses = 0
      ∧ vuWithinUses noVuPkg "VpsVpoAs_p" true = Except.ok 0 := by
  decide

/-! ## C7 -/

/-- C7 counterexample: the claim says a fatal I/O error in one checker aborts
only that invocation, the orchestrator catches it and the run still
completes.  In the orchestrator's checker chain an error raised by the
second checker is the result of the whole run — the run does not complete. -/
theorem c7_error_aborts_run :
    runCheckerSequence [Except.ok 0, Except.error PyErr.ioError, Except.ok 0]
      = Except.error PyErr.ioError := by
  rfl

/-- C7 amended: every checker ends its `except` clause with `raise` and
`check_layers` has no `try`, so the first raising checker aborts the whole
run: the run's result is that exception, whatever checkers follow. -/
theorem c7_first_error_propagates (pre post : List (Except PyErr Nat)) (e : PyErr)
    (h : ∀ c ∈ pre, ∃ n, c = Except.ok n) :
    runCheckerSequence (pre ++ Except.error e :: post) = Except.error e := by
  induction pre with
  | nil => rfl
  | cons c cs ih =>
    obtain ⟨n, rfl⟩ := h c (List.mem_cons_self c cs)
    have ht := ih (fun c' hc' => h c' (List.mem_cons_of_mem _ hc'))
    simp only [List.cons_append, runCheckerSequence, List.append_eq, ht]

/-- Witness for the C7 amended theorem at a concrete checker chain. -/
theorem c7_first_error_propagates_witness :
    (∀ c ∈ [Except.ok (ε := PyErr) 2], ∃ n, c = Except.ok n)
      ∧ runCheckerSequence [Except.ok 2, Except.error PyErr.ioError, Except.ok 3]
        = Except.error PyErr.ioError :=
  ⟨by intro c hc; rw [List.mem_singleton] at hc; exact ⟨2, hc⟩,
    c7_first_error_propagates [Except.ok 2] [Except.ok 3] PyErr.ioError
      (by intro c hc; rw [List.mem_singleton] at hc; exact ⟨2, hc⟩)⟩

/-! ## C10 -/

/-- C10 counterexample: the claim says that on a multi-part dissolve the gap
checks read the interior rings of the *first part*.  On `gapMultiLayer` the
dissolve is multi-part, its first part is the annulus and that part has one
interior ring — yet the accessor yields `None`, the check reports no gaps
and exports nothing: not even the first part's rings are read. -/
theorem c10_multipart_reads_no_rings :
    interiorsRow0 (dissolveL (gapMultiLayer.map Feature.geom)) = Option.none
      ∧ gEquals ((ccParts (dissolveL (gapMultiLayer.map Feature.geom))).headD ∅)
          ringReg = true
      ∧ (rings ringReg).length = 1
      ∧ checkGapsRel gapMultiLayer false = 0
      ∧ checkGapsRelExported gapMultiLayer = [] := by
  decide

/-- C10 amended: when the dissolved geometry is multi-part, the interiors
accessor yields `None` (geopandas returns `None` for non-`Polygon` rows), so
the gap check reads *no* interior rings at all: it reports zero gaps and
exports nothing — no part's rings, the first part's included, contribute. -/
theorem c10_multipart_gaps_vacuous (L : List Feature) (e : Bool)
    (hv : validityShpZip L = 0)
    (hnp : isPolygonB (dissolveL (L.map Feature.geom)) = false) :
    interiorsRow0 (dissolveL (L.map Feature.geom)) = Option.none
      ∧ checkGapsRel L e = 0
      ∧ checkGapsRelExported L = [] := by
  have hio : interiorsRow0 (dissolveL (L.map Feature.geom)) = Option.none := by
    unfold interiorsRow0
    rw [if_neg (by simp [hnp])]
  refine ⟨hio, ?_, ?_⟩
  · unfold checkGapsRel
    rw [if_pos hv]
    simp only [hio]
  · unfold checkGapsRelExported
    rw [if_pos hv]
    simp only [hio]

/-- Witness for the C10 amended theorem at the concrete multi-part layer. -/
theorem c10_multipart_gaps_vacuous_witness :
    (validityShpZip gapMultiLayer = 0
        ∧ isPolygonB (dissolveL (gapMultiLayer.map Feature.geom)) = false)
      ∧ (interiorsRow0 (dissolveL (gapMultiLayer.map Feature.geom)) = Option.none
        ∧ checkGapsRel gapMultiLayer false = 0
        ∧ checkGapsRelExported gapMultiLayer = []) :=
  ⟨⟨by decide, by decide⟩,
    c10_multipart_gaps_vacuous gapMultiLayer false (by decide) (by decide)⟩

/-! ## C2 -/

/-- C2: the spec says the final package status is Ok iff every per-layer
status and the relationship status are Ok, that any single Error anywhere
makes it Error, and that no-Error-but-some-Warning makes it Warning.
Confirmed on every completed run — with the Warning sentence holding
vacuously: relationship warnings only accumulate in the `KoridoryP_p`
branch, whose errors include the always-1 result of `covered_mun_both`, and
the `covered_mun_przv` branch (itself always 1) adds no warnings, so
`errors == 0 and warnings > 0` never holds, the relationship status is
never Warning, and the package status is only ever Ok or Error. -/
theorem c2_package_status_rollup (r : RunInput) :
    (packageStatus r = Status.ok ↔
        ((runShpsToCheck r).all fun s => layerStatus r s == Status.ok) = true
          ∧ relStatus r = Status.ok)
      ∧ (packageStatus r = Status.ok ∨ packageStatus r = Status.error)
      ∧ relStatus r ≠ Status.warning
      ∧ (relErrors r = 0 ∧ 0 < relWarnings r → packageStatus r = Status.warning) := by
  have hlayer : ∀ s : String,
      (layerStatus r s == Status.ok) = decide (layerErrors (r.outcome s) = 0) := by
    intro s
    unfold layerStatus
    by_cases h : layerErrors (r.outcome s) = 0
    · rw [if_pos h]
      simp [h]
    · rw [if_neg h]
      simp [h]
  refine ⟨?_, ?_, relStatus_ne_warning r, fun h => absurd h (rel_no_warning r)⟩
  · unfold packageStatus statusCounter
    rw [nonStdShps_eq_nil r]
    simp only [List.filter_nil, List.length_nil, Nat.add_zero, hlayer]
    constructor
    · intro h
      have hz : ((runShpsToCheck r).filter
            (fun s => decide (layerErrors (r.outcome s) ≠ 0))).length
          + (if relStatus r = Status.error then 1 else 0) = 0 := by
        by_contra hnz
        rw [if_neg hnz] at h
        exact absurd h (by decide)
      obtain ⟨hA, hB⟩ := Nat.add_eq_zero_iff.mp hz
      constructor
      · rw [List.all_eq_true]
        intro s hs
        rw [decide_eq_true_eq]
        by_contra hne
        have hmem : s ∈ (runShpsToCheck r).filter
            (fun s => decide (layerErrors (r.outcome s) ≠ 0)) :=
          List.mem_filter.mpr ⟨hs, by simpa using hne⟩
        rw [List.length_eq_zero.mp hA] at hmem
        exact absurd hmem (List.not_mem_nil s)
      · have hne : relStatus r ≠ Status.error := by
          intro habs
          rw [if_pos habs] at hB
          exact absurd hB (by decide)
        rcases hrel : relStatus r with _ | _ | _
        · rfl
        · exact absurd hrel (relStatus_ne_warning r)
        · exact absurd hrel hne
    · rintro ⟨hall, hrel⟩
      have hA : ((runShpsToCheck r).filter
          (fun s => decide (layerErrors (r.outcome s) ≠ 0))).length = 0 := by
        rw [List.length_eq_zero, List.filter_eq_nil_iff]
        intro s hs
        have hz := (List.all_eq_true.mp hall) s hs
        rw [decide_eq_true_eq] at hz
        simp [hz]
      have hB : (if relStatus r = Status.error then 1 else 0) = 0 := by
        rw [hrel]
        simp
      rw [hA, hB]
      simp
  · unfold packageStatus
    split_ifs
    · exact Or.inl rfl
    · exact Or.inr rfl

/-! ## C4 -/

/-- C4: the claim says the overlap check on a valid layer returns 0 iff no
two distinct features share interior area, and otherwise returns the number
of polygonal single parts of the pairwise intersections — in particular that
adding an exact duplicate of a nonzero-area feature yields a count > 0.  The
code returns a count only for an empty or validity-gated layer: for any
valid layer with at least one feature, the first loop's guard
`row.overlaps(shp_gdf.geometry)` coerces a pandas series with `bool(...)`,
which raises `ValueError`, and the `except` clause re-raises — so
`check_overlaps` crashes instead of returning `0` or any count, on the
duplicate layer and on a genuinely overlapping pair alike, under either
export flag. -/
theorem c4_overlap_check_always_raises :
    checkOverlapsRel dupLayer false = Except.error PyErr.valueError
      ∧ checkOverlapsRel dupLayer true = Except.error PyErr.valueError
      ∧ checkOverlapsRel overlapPairLayer false = Except.error PyErr.valueError
      ∧ validityShpZip dupLayer = 0
      ∧ gIntersects sqA sqA = true
      ∧ checkOverlapsRel [] false = Except.ok 0
      ∧ ∀ (f : Feature) (rest : List Feature) (e : Bool),
          checkOverlapsRel (f :: rest) e
            = if validityShpZip (f :: rest) = 0 then Except.error PyErr.valueError
              else Except.ok 0 := by
  refine ⟨by decide, by decide, by decide, by decide, by decide, by decide, ?_⟩
  intro f rest e
  by_cases hv : validityShpZip (f :: rest) = 0
  · rw [if_pos hv]
    unfold checkOverlapsRel
    rw [if_pos hv]
  · rw [if_neg hv]
    unfold checkOverlapsRel
    rw [if_neg hv]

/-! ## C5 -/

/-- C5 counterexample: the claim says the gap check reports 0 iff the
dissolved layer has no interior rings.  `gapMultiLayer` dissolves to a
multi-part geometry carrying one interior ring, yet the check returns 0
(geopandas yields `None` interiors for the non-`Polygon` row). -/
theorem c5_gap_check_misses_multipart_holes :
    validityShpZip gapMultiLayer = 0
      ∧ checkGapsRel gapMultiLayer false = 0
      ∧ (rings (dissolveL (gapMultiLayer.map Feature.geom))).length = 1 := by
  decide

/-- C5 amended: for a valid layer whose dissolve is a single polygon, the gap
check returns 0 iff the dissolved polygon has no interior rings; the verdict
is invariant under permuting the layer's features; and when rings exist the
exported gap polygons are exactly those rings. -/
theorem c5_gap_check_single_polygon (L L' : List Feature) (e : Bool)
    (hv : validityShpZip L = 0)
    (hp : isPolygonB (dissolveL (L.map Feature.geom)) = true)
    (hperm : L.Perm L') :
    (checkGapsRel L e = 0 ↔ rings (dissolveL (L.map Feature.geom)) = [])
      ∧ checkGapsRel L e = checkGapsRel L' e
      ∧ (rings (dissolveL (L.map Feature.geom)) = []
          ∨ checkGapsRelExported L = rings (dissolveL (L.map Feature.geom))) := by
  have hio : interiorsRow0 (dissolveL (L.map Feature.geom))
      = some (rings (dissolveL (L.map Feature.geom))) := by
    unfold interiorsRow0
    rw [if_pos hp]
  refine ⟨?_, ?_, ?_⟩
  · unfold checkGapsRel
    rw [if_pos hv]
    simp only [hio]
    split_ifs with hz
    · simp [List.length_eq_zero.mp hz]
    · constructor
      · intro h
        exact h.elim
      · intro h
        rw [h] at hz
        simp at hz
  · have hmap : (L.map Feature.geom).Perm (L'.map Feature.geom) := hperm.map _
    have hd : dissolveL (L.map Feature.geom) = dissolveL (L'.map Feature.geom) :=
      dissolveL_perm hmap
    have hv' : validityShpZip L' = 0 := by
      rw [← validityShpZip_perm hperm]; exact hv
    unfold checkGapsRel
    rw [if_pos hv, if_pos hv', ← hd]
  · by_cases hr : rings (dissolveL (L.map Feature.geom)) = []
    · exact Or.inl hr
    · right
      unfold checkGapsRelExported
      rw [if_pos hv]
      simp only [hio]
      rw [if_neg (fun h => hr (List.length_eq_zero.mp h))]

/-- Witness for the C5 amended theorem at the single annulus layer. -/
theorem c5_gap_check_single_polygon_witness :
    (validityShpZip gapSingleLayer = 0
        ∧ isPolygonB (dissolveL (gapSingleLayer.map Feature.geom)) = true)
      ∧ ((checkGapsRel gapSingleLayer false = 0 ↔
            rings (dissolveL (gapSingleLayer.map Feature.geom)) = [])
          ∧ checkGapsRel gapSingleLayer false = checkGapsRel gapSingleLayer false
          ∧ (rings (dissolveL (gapSingleLayer.map Feature.geom)) = []
              ∨ checkGapsRelExported gapSingleLayer
                  = rings (dissolveL (gapSingleLayer.map Feature.geom)))) :=
  ⟨⟨by decide, by decide⟩,
    c5_gap_check_single_polygon gapSingleLayer gapSingleLayer false (by decide) (by decide)
      (List.Perm.refl _)⟩

/-! ## C8 -/

/-- C8 counterexample: the claim says two runs on the same unchanged package
produce identical findings, with no dependence on the current date.  On the
same `PlochyPodm_p` table the value check returns one violation when run on
2023-01-01 and raises `KeyError` when run on 2023-01-02 (the `datum` cell
equals that day's date, which forces the read of the missing
`values["plochypodm_p"]["datum"]` entry). -/
theorem c8_datum_check_depends_on_today :
    allowedValues podmLayer 550000 "2023-01-01" false = Except.ok 1
      ∧ allowedValues podmLayer 550000 "2023-01-02" false
        = Except.error PyErr.keyError := by
  decide

theorem valueViolationsForCol_today_irrelevant (l : RecLayer) (mc : Int)
    (d₁ d₂ : String) (missing : List String) (c : Col)
    (h : strLower l.shp ≠ "plochypodm_p") :
    valueViolationsForCol l mc d₁ missing c = valueViolationsForCol l mc d₂ missing c := by
  have hcond : ¬(strLower l.shp = "plochypodm_p" ∧ c.name ∉ missing) :=
    fun hc => h hc.1
  simp only [valueViolationsForCol]
  rw [if_neg hcond, if_neg hcond]

theorem foldlM_addM_congr (f g : Col → Except PyErr Nat) (h : ∀ c, f c = g c) :
    ∀ (cs : List Col) (a : Nat),
      cs.foldlM (fun acc c => do
        let n ← f c
        pure (acc + n)) a
        = cs.foldlM (fun acc c => do
            let n ← g c
            pure (acc + n)) a := by
  intro cs
  induction cs with
  | nil => intro a; rfl
  | cons c cs ih =>
    intro a
    simp only [List.foldlM_cons, h c]
    cases hgc : g c with
    | error err => rfl
    | ok n => exact ih (a + n)

/-- C8 amended: the findings are a deterministic function of the package
contents *and the current date*: the `PlochyPodm_p` `datum` rule is the only
date dependence, so for every other layer type the value check returns the
same result whatever day it runs on. -/
theorem c8_deterministic_modulo_date (l : RecLayer) (mc : Int) (d₁ d₂ : String)
    (e : Bool) (h : strLower l.shp ≠ "plochypodm_p") :
    allowedValues l mc d₁ e = allowedValues l mc d₂ e := by
  unfold allowedValues
  cases hA : attributesOf (strLower l.shp) with
  | none => rfl
  | some attrsList =>
    exact foldlM_addM_congr _ _
      (fun c => valueViolationsForCol_today_irrelevant l mc d₁ d₂ _ c h) _ 0

/-- Witness for the C8 amended theorem at a `PlochyRZV_p` table. -/
theorem c8_deterministic_modulo_date_witness :
    strLower rzvNullLayer.shp ≠ "plochypodm_p"
      ∧ allowedValues rzvNullLayer 550000 "2023-01-01" false
        = allowedValues rzvNullLayer 550000 "2023-01-02" false :=
  ⟨by decide,
    c8_deterministic_modulo_date rzvNullLayer 550000 "2023-01-01" "2023-01-02" false
      (by decide)⟩

/-! ## C9 -/

/-- C9 counterexample: the claim says a null `typ` or `index` cell of
`PlochyRZV_p` is always reported as a violation.  On a one-row table with
both cells null the check reports zero violations: the row loops run over
`range(Series.count())`, which excludes null cells, so the null row is never
visited (and the `index` rule skips nulls outright). -/
theorem c9_null_cells_not_reported :
    allowedValues rzvNullLayer 550000 "2023-01-01" false = Except.ok 0 := by
  decide

/-- C9 amended: a null cell is counted by the membership-style `typ` rule
exactly when its row index lies below the column's non-null count (pandas
`count()`), since null never belongs to the permitted set; the conditional
`index` rule never counts a null cell at all. -/
theorem c9_null_handling (l : RecLayer) (c : Col) (row : Nat)
    (h1 : row < colCount c) (h2 : getCell c row = PV.null) :
    0 < notInListCount obecneTypPV c
      ∧ plochyrzvIndexRow l c row = Except.ok 0 := by
  constructor
  · unfold notInListCount
    have hmem : row ∈ (List.range (colCount c)).filter
        (fun r => decide (getCell c r ∉ obecneTypPV)) := by
      rw [List.mem_filter]
      refine ⟨List.mem_range.mpr h1, ?_⟩
      rw [decide_eq_true_eq, h2]
      intro hin
      unfold obecneTypPV at hin
      obtain ⟨x, _, hx⟩ := List.mem_map.mp hin
      exact absurd hx (by simp)
    exact List.length_pos.mpr (List.ne_nil_of_mem hmem)
  · simp [plochyrzvIndexRow, h2]

/-- Witness for the C9 amended theorem at a reached null `typ` cell. -/
theorem c9_null_handling_witness :
    (0 < colCount (⟨"typ", [PV.null, PV.s "AP"]⟩ : Col)
        ∧ getCell (⟨"typ", [PV.null, PV.s "AP"]⟩ : Col) 0 = PV.null)
      ∧ (0 < notInListCount obecneTypPV (⟨"typ", [PV.null, PV.s "AP"]⟩ : Col)
        ∧ plochyrzvIndexRow rzvNullLayer (⟨"typ", [PV.null, PV.s "AP"]⟩ : Col) 0
            = Except.ok 0) :=
  ⟨⟨by decide, by decide⟩,
    c9_null_handling rzvNullLayer (⟨"typ", [PV.null, PV.s "AP"]⟩ : Col) 0
      (by decide) (by decide)⟩

end JsUp
